import Mathlib

/-!
Verification of `custom_components/glowswitch/generic_bt_api/device.py`
(class `GenericBTDevice`).

The Python code drives one external BLE transport (bleak).  We embed it as a
deterministic interpreter over an explicit environment script: every call the
code makes into the transport (connect attempt, GATT characteristic
operation, transport-level disconnect) consumes the next outcome from the
corresponding queue of the script.  Device state is the pair of fields the
class holds: `_client` (the current BleakClient, modelled as an id plus its
`is_connected` flag) and `_client_stack` (the AsyncExitStack, modelled as the
context it currently holds; `BleakClient.__aexit__` performs a transport
disconnect, so closing a held live context consumes a disconnect outcome and
propagates its failure).  A `Trace` records the observable side effects:
connect attempts, GATT calls, transport disconnect calls, context releases
and the `asyncio.sleep` delays (in tenths of a time-unit, so `5` is 0.5).
-/

namespace GlowSwitch

/-- Python exception classes raised by / through `device.py`:
`IdealLedTimeout`, `IdealLedBleakError`, `BleakError`, `ValueError`.
`retriesExhausted` is the spec's §7 `RetriesExhausted` kind; it is included
so that statements about it can be made — the code never constructs it. -/
inductive PyErr where
  | idealTimeout (msg : String)
  | idealBleak (msg : String)
  | bleak (msg : String)
  | valueError (msg : String)
  | retriesExhausted (msg : String)
  deriving Repr, DecidableEq

/-- A BleakClient as the code observes it: an identity (which construction
produced it) and its `is_connected` flag. -/
structure ClientH where
  cid : Nat
  live : Bool
  deriving Repr, DecidableEq

/-- Outcome of one connect attempt
(`BleakClient(...)` + `enter_async_context`, i.e. `__aenter__`/connect):
success with a live client, success with a client that immediately reports
not connected (the `if not self._client.is_connected` guard at device.py:87),
`asyncio.TimeoutError`, `BleakError`, or any other exception. -/
inductive ConnectOutcome where
  | ok (cid : Nat)
  | okDead (cid : Nat)
  | timeout (msg : String)
  | bleakErr (msg : String)
  | otherErr (msg : String)
  deriving Repr, DecidableEq

/-- Outcome of one GATT characteristic operation
(`write_gatt_char` / `read_gatt_char`): success (with the bytes a read would
return) or a `BleakError` with the given message. -/
inductive GattOutcome where
  | ok (val : List Nat)
  | bleakErr (msg : String)
  deriving Repr, DecidableEq

/-- Outcome of one transport-level disconnect call (`BleakClient.disconnect`,
reached directly at device.py:47 or through the exit stack's `aclose`). -/
inductive DiscOutcome where
  | ok
  | err (msg : String)
  deriving Repr, DecidableEq

/-- The environment script: queues of outcomes, one per transport primitive.
An exhausted queue yields a benign default (success). -/
structure Env where
  conns : List ConnectOutcome
  gatts : List GattOutcome
  discs : List DiscOutcome
  deriving Repr, DecidableEq

/-- Observable side effects of a run. `sleeps` lists the `asyncio.sleep`
delays in tenths of a time-unit. `gattTargets` lists the canonical 128-bit
UUID value passed to each GATT call. -/
structure Trace where
  connects : Nat
  gattOps : Nat
  transportDiscs : Nat
  releases : Nat
  gattTargets : List Nat
  sleeps : List Nat
  deriving Repr, DecidableEq

def Trace.init : Trace := ⟨0, 0, 0, 0, [], []⟩

/-- The fields of `GenericBTDevice`: the device address (from `_ble_device`),
`_client`, and the context currently held by `_client_stack` (at most one;
`none` models a fresh/empty `AsyncExitStack`). -/
structure DeviceState where
  addr : String
  client : Option ClientH
  stack : Option ClientH
  deriving Repr, DecidableEq

instance instDecEqExcept {ε α : Type} [DecidableEq ε] [DecidableEq α] :
    DecidableEq (Except ε α) := fun x y =>
  match x, y with
  | Except.ok a, Except.ok b =>
    if h : a = b then isTrue (by rw [h])
    else isFalse (by intro hh; cases hh; exact h rfl)
  | Except.error a, Except.error b =>
    if h : a = b then isTrue (by rw [h])
    else isFalse (by intro hh; cases hh; exact h rfl)
  | Except.ok _, Except.error _ => isFalse (by intro hh; cases hh)
  | Except.error _, Except.ok _ => isFalse (by intro hh; cases hh)

/-- Result of running a method: Python return-or-raise, plus the final device
state, the rest of the environment script, and the accumulated trace. -/
structure Outcome (α : Type) where
  res : Except PyErr α
  st : DeviceState
  env : Env
  tr : Trace
  deriving Repr, DecidableEq

def popConn (l : List ConnectOutcome) : ConnectOutcome × List ConnectOutcome :=
  (l.headD (ConnectOutcome.ok 0), l.tail)

def popGatt (l : List GattOutcome) : GattOutcome × List GattOutcome :=
  (l.headD (GattOutcome.ok []), l.tail)

def popDisc (l : List DiscOutcome) : DiscOutcome × List DiscOutcome :=
  (l.headD DiscOutcome.ok, l.tail)

/-- device.py:44-53: the explicit disconnect phase of `disconnect()`.
If a client exists and reports connected, call transport disconnect and
swallow any error (the `except`/`except`/`finally` at lines 48-53); in every
case `_client` is set to `None`.  A successful transport disconnect marks the
(shared) client object held by the stack as no longer connected; a failed one
leaves the link up. -/
def explicitDisconnect (s : DeviceState) (env : Env) (tr : Trace) :
    DeviceState × Env × Trace :=
  match s.client with
  | none => (s, env, tr)
  | some c =>
    if c.live then
      let (d, discs') := popDisc env.discs
      let env' : Env := { env with discs := discs' }
      let tr' : Trace := { tr with transportDiscs := tr.transportDiscs + 1 }
      match d with
      | DiscOutcome.ok =>
        ({ s with client := none,
                  stack := s.stack.map (fun h =>
                    if h.cid = c.cid then { h with live := false } else h) },
         env', tr')
      | DiscOutcome.err _ =>
        ({ s with client := none }, env', tr')
    else
      ({ s with client := none }, env, tr)

/-- device.py:57-60: `self._client_stack.pop_all().aclose()` followed by the
reinitialisation of the stack.  Closing a held context runs
`BleakClient.__aexit__`, i.e. a transport disconnect on that client; a
failure there is NOT caught and propagates (as a `BleakError`).  `pop_all`
empties the stack before `aclose` runs, so the stack ends empty even when
the close raises. -/
def closeStack (s : DeviceState) (env : Env) (tr : Trace) : Outcome Unit :=
  match s.stack with
  | none => ⟨Except.ok (), { s with stack := none }, env, tr⟩
  | some h =>
    let tr1 : Trace := { tr with releases := tr.releases + 1 }
    if h.live then
      let (d, discs') := popDisc env.discs
      let env1 : Env := { env with discs := discs' }
      let tr2 : Trace := { tr1 with transportDiscs := tr1.transportDiscs + 1 }
      match d with
      | DiscOutcome.ok => ⟨Except.ok (), { s with stack := none }, env1, tr2⟩
      | DiscOutcome.err m =>
        ⟨Except.error (PyErr.bleak m), { s with stack := none }, env1, tr2⟩
    else
      ⟨Except.ok (), { s with stack := none }, env, tr1⟩

/-- device.py:39-61: `disconnect()` — explicit client disconnect (errors
swallowed, `_client := None`), then stack teardown (errors propagate). -/
def disconnect (s : DeviceState) (env : Env) (tr : Trace) : Outcome Unit :=
  let p := explicitDisconnect s env tr
  closeStack p.1 p.2.1 p.2.2

/-- device.py:63-66: the `connected` property. -/
def connected (s : DeviceState) : Bool :=
  match s.client with
  | some c => c.live
  | none => false

/-- The connect timeout passed to `BleakClient` (device.py:85). -/
def CONNECT_TIMEOUT : Nat := 30

/-- An exception handler body of `get_client`'s try (device.py:93-104): run
`self.disconnect()`; if that itself raises, the new exception replaces the
pending one; otherwise raise `e`. -/
def handlerDisconnectThen (s : DeviceState) (env : Env) (tr : Trace)
    (e : PyErr) : Outcome ClientH :=
  let o := disconnect s env tr
  match o.res with
  | Except.ok _ => ⟨Except.error e, o.st, o.env, o.tr⟩
  | Except.error e2 => ⟨Except.error e2, o.st, o.env, o.tr⟩

/-- device.py:81-104: the fresh-connect attempt of `get_client` (the `try`
block).  One connect outcome is consumed.  On `okDead` the code disconnects
and raises `IdealLedBleakError` from inside the `try` body (line 90), which
is then caught by a later `except` clause of the same `try`: by
`except BleakError` (line 97) if the inner disconnect raised a `BleakError`,
else by `except Exception` (line 101); either handler disconnects again and
raises its own wrapper. -/
def connectWith (s : DeviceState) (env : Env) (tr : Trace) :
    ConnectOutcome → Outcome ClientH
  | ConnectOutcome.ok cid =>
    let c : ClientH := ⟨cid, true⟩
    ⟨Except.ok c, { s with client := some c, stack := some c }, env, tr⟩
  | ConnectOutcome.okDead cid =>
    let c : ClientH := ⟨cid, false⟩
    let s1 : DeviceState := { s with client := some c, stack := some c }
    let o := disconnect s1 env tr
    match o.res with
    | Except.ok _ =>
      handlerDisconnectThen o.st o.env o.tr
        (PyErr.idealBleak ("Unexpected error connecting to " ++ s.addr))
    | Except.error (PyErr.bleak _) =>
      handlerDisconnectThen o.st o.env o.tr
        (PyErr.idealBleak ("BleakError on connect to " ++ s.addr))
    | Except.error _ =>
      handlerDisconnectThen o.st o.env o.tr
        (PyErr.idealBleak ("Unexpected error connecting to " ++ s.addr))
  | ConnectOutcome.timeout _ =>
    handlerDisconnectThen s env tr
      (PyErr.idealTimeout ("Timeout on connect to " ++ s.addr))
  | ConnectOutcome.bleakErr _ =>
    handlerDisconnectThen s env tr
      (PyErr.idealBleak ("BleakError on connect to " ++ s.addr))
  | ConnectOutcome.otherErr _ =>
    handlerDisconnectThen s env tr
      (PyErr.idealBleak ("Unexpected error connecting to " ++ s.addr))

def connectFresh (s : DeviceState) (env : Env) (tr : Trace) : Outcome ClientH :=
  let (co, conns') := popConn env.conns
  connectWith s { env with conns := conns' }
    { tr with connects := tr.connects + 1 } co

/-- device.py:68-104: `get_client()`.  Reuse a connected client; otherwise
tear down a stale one (line 79, outside the `try`: a failure there
propagates raw) and attempt one fresh connect. -/
def get_client (s : DeviceState) (env : Env) (tr : Trace) : Outcome ClientH :=
  match s.client with
  | some c =>
    if c.live then ⟨Except.ok c, s, env, tr⟩
    else
      let o := disconnect s env tr
      match o.res with
      | Except.error e => ⟨Except.error e, o.st, o.env, o.tr⟩
      | Except.ok _ => connectFresh o.st o.env o.tr
  | none => connectFresh s env tr

/-- device.py:13: the outer attempt budget. -/
def RETRY_ATTEMPTS : Nat := 2

/-- device.py:134/141/174/181: `0.5 if attempt < 1 else 1.0`, in tenths of a
time-unit. -/
def sleepDelay (attempt : Nat) : Nat := if attempt < 1 then 5 else 10

def isHexDigit (c : Char) : Bool :=
  (Char.ofNat 48 ≤ c && c ≤ Char.ofNat 57) ||
  (Char.ofNat 97 ≤ c && c ≤ Char.ofNat 102) ||
  (Char.ofNat 65 ≤ c && c ≤ Char.ofNat 70)

def hexDigitVal (c : Char) : Nat :=
  if Char.ofNat 48 ≤ c && c ≤ Char.ofNat 57 then c.toNat - 48
  else if Char.ofNat 97 ≤ c then c.toNat - 97 + 10
  else c.toNat - 65 + 10

def hexVal (l : List Char) : Nat :=
  l.foldl (fun a c => 16 * a + hexDigitVal c) 0

/-- device.py:111/154: `target_uuid_str.replace("\x7b","").replace("\x7d","")`
— every brace character is removed. -/
def stripBraces (l : List Char) : List Char :=
  l.filter (fun c => c ≠ Char.ofNat 123 && c ≠ Char.ofNat 125)

/-- Strip every leading and trailing character drawn from `cs`
(Python `str.strip`). -/
def stripEnds (cs : List Char) (l : List Char) : List Char :=
  ((l.dropWhile (fun c => cs.contains c)).reverse.dropWhile
    (fun c => cs.contains c)).reverse

/-- The standard-library `uuid.UUID(str)` constructor, restricted to the
inputs this program can meet (spec §6: a canonical 128-bit UUID string,
optionally wrapped in braces): strip enclosing angle brackets/braces, drop
hyphens, then require exactly 32 hex digits; the value is the 128-bit
number, which is the canonical identity of the characteristic. -/
def pyUUIDVal (l : List Char) : Option Nat :=
  let h := (stripEnds [Char.ofNat 60, Char.ofNat 62, Char.ofNat 123,
      Char.ofNat 125] l).filter (fun c => c ≠ Char.ofNat 45)
  if h.length = 32 && h.all isHexDigit then some (hexVal h) else none

/-- `bytearray.fromhex`: spaces are ignored, then exactly two hex digits per
byte are required. -/
def hexPairs : List Char → Option (List Nat)
  | [] => some []
  | a :: b :: rest =>
    if isHexDigit a && isHexDigit b then
      (hexPairs rest).map (fun t => (16 * hexDigitVal a + hexDigitVal b) :: t)
    else none
  | [_] => none

def hexBytes (l : List Char) : Option (List Nat) :=
  hexPairs (l.filter (fun c => c ≠ Char.ofNat 32))

/-- device.py:119-148: the retry loop of `write_gatt`, one recursive step per
`for attempt in range(RETRY_ATTEMPTS)` iteration.  `fuel` is the number of
iterations left, `attempt` the current index, `last` the `last_exception`
variable.  `IdealLedTimeout`/`IdealLedBleakError` from `get_client` hit the
first `except` branch (no disconnect there — get_client already cleaned up);
a `BleakError` (from the GATT call, or escaping `get_client`'s internal
teardown) hits the `except BleakError` branch, which disconnects (a raise
from that disconnect replaces the pending exception) and retries if attempts
remain; any other exception propagates.  When the loop falls through, the
code re-raises `last_exception` if set. -/
def writeLoop (u : Nat) (payload : List Nat) (last : Option PyErr)
    (attempt : Nat) : Nat → DeviceState → Env → Trace → Outcome Unit
  | 0, s, env, tr =>
    match last with
    | some e => ⟨Except.error e, s, env, tr⟩
    | none => ⟨Except.ok (), s, env, tr⟩
  | fuel + 1, s, env, tr =>
    let g := get_client s env tr
    match g.res with
    | Except.ok _ =>
      let (go, gatts') := popGatt g.env.gatts
      let env2 : Env := { g.env with gatts := gatts' }
      let tr2 : Trace := { g.tr with gattOps := g.tr.gattOps + 1
                                     gattTargets := g.tr.gattTargets ++ [u] }
      match go with
      | GattOutcome.ok _ => ⟨Except.ok (), g.st, env2, tr2⟩
      | GattOutcome.bleakErr m =>
        let o := disconnect g.st env2 tr2
        match o.res with
        | Except.error e2 => ⟨Except.error e2, o.st, o.env, o.tr⟩
        | Except.ok _ =>
          if attempt < RETRY_ATTEMPTS - 1 then
            let tr3 : Trace := { o.tr with sleeps := o.tr.sleeps ++ [sleepDelay attempt] }
            writeLoop u payload (some (PyErr.bleak m)) (attempt + 1) fuel o.st o.env tr3
          else ⟨Except.error (PyErr.bleak m), o.st, o.env, o.tr⟩
    | Except.error e =>
      match e with
      | PyErr.idealTimeout _ | PyErr.idealBleak _ =>
        if attempt ≥ RETRY_ATTEMPTS - 1 then ⟨Except.error e, g.st, g.env, g.tr⟩
        else
          let tr2 : Trace := { g.tr with sleeps := g.tr.sleeps ++ [sleepDelay attempt] }
          writeLoop u payload (some e) (attempt + 1) fuel g.st g.env tr2
      | PyErr.bleak m =>
        let o := disconnect g.st g.env g.tr
        match o.res with
        | Except.error e2 => ⟨Except.error e2, o.st, o.env, o.tr⟩
        | Except.ok _ =>
          if attempt < RETRY_ATTEMPTS - 1 then
            let tr3 : Trace := { o.tr with sleeps := o.tr.sleeps ++ [sleepDelay attempt] }
            writeLoop u payload (some (PyErr.bleak m)) (attempt + 1) fuel o.st o.env tr3
          else ⟨Except.error (PyErr.bleak m), o.st, o.env, o.tr⟩
      | _ => ⟨Except.error e, g.st, g.env, g.tr⟩

/-- device.py:107-148: `write_gatt(target_uuid_str, data)`.  Brace-stripping
and UUID parsing come first (a `ValueError` is re-raised, line 114), then the
hex decode (line 116, its `ValueError` uncaught), and only then the retry
loop — so malformed input is rejected with no connect attempt, no GATT call
and no retry. -/
def write_gatt (s : DeviceState) (uuidStr dataHex : List Char) (env : Env)
    (tr : Trace) : Outcome Unit :=
  match pyUUIDVal (stripBraces uuidStr) with
  | none =>
    ⟨Except.error (PyErr.valueError ("Invalid UUID format: " ++ String.mk uuidStr)),
     s, env, tr⟩
  | some u =>
    match hexBytes dataHex with
    | none =>
      ⟨Except.error (PyErr.valueError "non-hexadecimal number found in fromhex() arg"),
       s, env, tr⟩
    | some payload => writeLoop u payload none 0 RETRY_ATTEMPTS s env tr

/-- device.py:161-184: the retry loop of `read_gatt`; identical to
`writeLoop` except that the GATT primitive's result bytes are returned.
When the loop falls through with no recorded exception the Python function
returns `None` (modelled as `Except.ok none`); that branch is unreachable
for a positive budget. -/
def readLoop (u : Nat) (last : Option PyErr)
    (attempt : Nat) : Nat → DeviceState → Env → Trace → Outcome (Option (List Nat))
  | 0, s, env, tr =>
    match last with
    | some e => ⟨Except.error e, s, env, tr⟩
    | none => ⟨Except.ok none, s, env, tr⟩
  | fuel + 1, s, env, tr =>
    let g := get_client s env tr
    match g.res with
    | Except.ok _ =>
      let (go, gatts') := popGatt g.env.gatts
      let env2 : Env := { g.env with gatts := gatts' }
      let tr2 : Trace := { g.tr with gattOps := g.tr.gattOps + 1
                                     gattTargets := g.tr.gattTargets ++ [u] }
      match go with
      | GattOutcome.ok v => ⟨Except.ok (some v), g.st, env2, tr2⟩
      | GattOutcome.bleakErr m =>
        let o := disconnect g.st env2 tr2
        match o.res with
        | Except.error e2 => ⟨Except.error e2, o.st, o.env, o.tr⟩
        | Except.ok _ =>
          if attempt < RETRY_ATTEMPTS - 1 then
            let tr3 : Trace := { o.tr with sleeps := o.tr.sleeps ++ [sleepDelay attempt] }
            readLoop u (some (PyErr.bleak m)) (attempt + 1) fuel o.st o.env tr3
          else ⟨Except.error (PyErr.bleak m), o.st, o.env, o.tr⟩
    | Except.error e =>
      match e with
      | PyErr.idealTimeout _ | PyErr.idealBleak _ =>
        if attempt ≥ RETRY_ATTEMPTS - 1 then ⟨Except.error e, g.st, g.env, g.tr⟩
        else
          let tr2 : Trace := { g.tr with sleeps := g.tr.sleeps ++ [sleepDelay attempt] }
          readLoop u (some e) (attempt + 1) fuel g.st g.env tr2
      | PyErr.bleak m =>
        let o := disconnect g.st g.env g.tr
        match o.res with
        | Except.error e2 => ⟨Except.error e2, o.st, o.env, o.tr⟩
        | Except.ok _ =>
          if attempt < RETRY_ATTEMPTS - 1 then
            let tr3 : Trace := { o.tr with sleeps := o.tr.sleeps ++ [sleepDelay attempt] }
            readLoop u (some (PyErr.bleak m)) (attempt + 1) fuel o.st o.env tr3
          else ⟨Except.error (PyErr.bleak m), o.st, o.env, o.tr⟩
      | _ => ⟨Except.error e, g.st, g.env, g.tr⟩

/-- device.py:151-187: `read_gatt(target_uuid_str)`. -/
def read_gatt (s : DeviceState) (uuidStr : List Char) (env : Env)
    (tr : Trace) : Outcome (Option (List Nat)) :=
  match pyUUIDVal (stripBraces uuidStr) with
  | none =>
    ⟨Except.error (PyErr.valueError ("Invalid UUID format: " ++ String.mk uuidStr)),
     s, env, tr⟩
  | some u => readLoop u none 0 RETRY_ATTEMPTS s env tr

/-- device.py:33-37: `stop()` — take the lock and `disconnect()`. -/
def stop (s : DeviceState) (env : Env) (tr : Trace) : Outcome Unit :=
  disconnect s env tr

/-- device.py:189-191: `update_from_advertisement` is a placeholder —
`pass` — so it leaves the device state untouched. -/
def update_from_advertisement (s : DeviceState) (_advertisement : String) :
    DeviceState := s

/-! ## Helper lemmas -/

lemma explicitDisconnect_client (s : DeviceState) (env : Env) (tr : Trace) :
    (explicitDisconnect s env tr).1.client = none := by
  unfold explicitDisconnect
  rcases s with ⟨a, _ | c, st⟩
  · rfl
  · simp only
    split
    · split <;> rfl
    · rfl

lemma explicitDisconnect_addr (s : DeviceState) (env : Env) (tr : Trace) :
    (explicitDisconnect s env tr).1.addr = s.addr := by
  unfold explicitDisconnect
  rcases s with ⟨a, _ | c, st⟩
  · rfl
  · simp only
    split
    · split <;> rfl
    · rfl

lemma closeStack_st (s : DeviceState) (env : Env) (tr : Trace) :
    (closeStack s env tr).st = { s with stack := none } := by
  unfold closeStack
  rcases hs : s.stack with _ | h
  · rfl
  · simp only
    split
    · split <;> rfl
    · rfl

lemma disconnect_client (s : DeviceState) (env : Env) (tr : Trace) :
    (disconnect s env tr).st.client = none := by
  unfold disconnect
  rw [closeStack_st]
  exact explicitDisconnect_client s env tr

lemma disconnect_stack (s : DeviceState) (env : Env) (tr : Trace) :
    (disconnect s env tr).st.stack = none := by
  unfold disconnect
  rw [closeStack_st]

lemma disconnect_addr (s : DeviceState) (env : Env) (tr : Trace) :
    (disconnect s env tr).st.addr = s.addr := by
  unfold disconnect
  rw [closeStack_st]
  exact explicitDisconnect_addr s env tr

lemma disconnect_disconnected (s : DeviceState) (env : Env) (tr : Trace)
    (hc : s.client = none) (hs : s.stack = none) :
    disconnect s env tr = ⟨Except.ok (), s, env, tr⟩ := by
  rcases s with ⟨a, cl, st⟩
  simp only at hc hs
  subst hc; subst hs
  rfl

lemma handlerDisconnectThen_spec (s : DeviceState) (env : Env) (tr : Trace)
    (e : PyErr) :
    (∃ e', (handlerDisconnectThen s env tr e).res = Except.error e') ∧
    (handlerDisconnectThen s env tr e).st.client = none ∧
    (handlerDisconnectThen s env tr e).st.stack = none := by
  unfold handlerDisconnectThen
  rcases h : (disconnect s env tr).res with e2 | u <;>
    simp only [h] <;>
    exact ⟨⟨_, rfl⟩, disconnect_client s env tr, disconnect_stack s env tr⟩

lemma connectWith_ok (s : DeviceState) (env : Env) (tr : Trace)
    (co : ConnectOutcome) (c : ClientH)
    (h : (connectWith s env tr co).res = Except.ok c) :
    c.live = true ∧ (connectWith s env tr co).st.client = some c ∧
    (connectWith s env tr co).st.stack = some c := by
  cases co <;> simp only [connectWith] at h ⊢
  case ok cid =>
    cases h
    exact ⟨rfl, rfl, rfl⟩
  case okDead cid =>
    rcases hd : (disconnect _ _ _).res with e2 | u
    · rcases e2 <;> simp only [hd] at h ⊢ <;>
        (obtain ⟨⟨e', he⟩, _, _⟩ := handlerDisconnectThen_spec _ _ _ _;
         rw [he] at h; cases h)
    · simp only [hd] at h ⊢
      obtain ⟨⟨e', he⟩, _, _⟩ := handlerDisconnectThen_spec _ _ _ _
      rw [he] at h; cases h
  all_goals
    obtain ⟨⟨e', he⟩, _, _⟩ := handlerDisconnectThen_spec _ _ _ _
    rw [he] at h; cases h

lemma connectWith_error (s : DeviceState) (env : Env) (tr : Trace)
    (co : ConnectOutcome) (e : PyErr)
    (h : (connectWith s env tr co).res = Except.error e) :
    (connectWith s env tr co).st.client = none ∧
    (connectWith s env tr co).st.stack = none := by
  cases co <;> simp only [connectWith] at h ⊢
  case ok cid => cases h
  case okDead cid =>
    rcases hd : (disconnect _ _ _).res with e2 | u
    · rcases e2 <;> simp only [hd] <;>
        (obtain ⟨_, h1, h2⟩ := handlerDisconnectThen_spec _ _ _ _;
         exact ⟨h1, h2⟩)
    · simp only [hd]
      obtain ⟨_, h1, h2⟩ := handlerDisconnectThen_spec _ _ _ _
      exact ⟨h1, h2⟩
  all_goals
    obtain ⟨_, h1, h2⟩ := handlerDisconnectThen_spec _ _ _ _
    exact ⟨h1, h2⟩

lemma connectFresh_ok (s : DeviceState) (env : Env) (tr : Trace) (c : ClientH)
    (h : (connectFresh s env tr).res = Except.ok c) :
    c.live = true ∧ (connectFresh s env tr).st.client = some c ∧
    (connectFresh s env tr).st.stack = some c := by
  unfold connectFresh at h ⊢
  exact connectWith_ok _ _ _ _ _ h

lemma connectFresh_error (s : DeviceState) (env : Env) (tr : Trace) (e : PyErr)
    (h : (connectFresh s env tr).res = Except.error e) :
    (connectFresh s env tr).st.client = none ∧
    (connectFresh s env tr).st.stack = none := by
  unfold connectFresh at h ⊢
  exact connectWith_error _ _ _ _ _ h

/-! ## Concrete sample states and environments (shared by witnesses and
counterexamples) -/

def sampleAddr : String := "AA:BB:CC:DD:EE:FF"

def liveClient : ClientH := ⟨1, true⟩

def staleClient : ClientH := ⟨1, false⟩

/-- A device holding a live connection. -/
def sLive : DeviceState := ⟨sampleAddr, some liveClient, some liveClient⟩

/-- A device holding a stale (not-live) connection. -/
def sStale : DeviceState := ⟨sampleAddr, some staleClient, some staleClient⟩

/-- A fully disconnected device. -/
def sDisc : DeviceState := ⟨sampleAddr, none, none⟩

def envEmpty : Env := ⟨[], [], []⟩

def envTimeout : Env := ⟨[ConnectOutcome.timeout "t"], [], []⟩

/-- The test characteristic UUID used throughout the repository's tests. -/
def goodUUID : List Char := String.toList "00001101-0000-1000-8000-00805f9b34fb"

/-- The test hex payload used throughout the repository's tests. -/
def goodHex : List Char := String.toList "aabbcc"

/-! ## Claim theorems -/

/-- C1: if a transport client exists and reports itself connected,
`get_client` returns that same client, leaves the device state untouched,
consumes nothing from the environment (no `BleakClient` constructed, no
connect issued) and records nothing in the trace. -/
theorem get_client_reuses_live_connection (s : DeviceState) (c : ClientH)
    (env : Env) (tr : Trace) (hc : s.client = some c) (hl : c.live = true) :
    get_client s env tr = ⟨Except.ok c, s, env, tr⟩ := by
  unfold get_client
  rw [hc]
  simp [hl]

/-- Witness for C1 at a concrete live state. -/
theorem get_client_reuse_witness :
    sLive.client = some liveClient ∧ liveClient.live = true ∧
    get_client sLive envEmpty Trace.init =
      ⟨Except.ok liveClient, sLive, envEmpty, Trace.init⟩ :=
  ⟨rfl, rfl, get_client_reuses_live_connection sLive liveClient envEmpty
    Trace.init rfl rfl⟩

/-- C5: `get_client` never leaves a partially initialised handle: (first
part) whenever it returns a client, that client is stored and live and owns
the teardown context, and whenever it fails, the state is fully reset to
disconnected (`_client` is `None` and the stack holds nothing); (second
part) on a connect timeout the call fails with the `IdealLedTimeout` kind
(the spec's `ConnectTimeout`), the state is disconnected, and exactly the
one connect attempt was consumed. -/
theorem get_client_full_reset (s : DeviceState) (env : Env) (tr : Trace)
    (hstack : s.stack = s.client) :
    ((∀ c, (get_client s env tr).res = Except.ok c →
        (get_client s env tr).st.client = some c ∧ c.live = true ∧
        (get_client s env tr).st.stack = some c) ∧
     (∀ e, (get_client s env tr).res = Except.error e →
        (get_client s env tr).st.client = none ∧
        (get_client s env tr).st.stack = none)) ∧
    (∀ m cs, s.client = none → env.conns = ConnectOutcome.timeout m :: cs →
      get_client s env tr =
        ⟨Except.error (PyErr.idealTimeout ("Timeout on connect to " ++ s.addr)),
         ⟨s.addr, none, none⟩, { env with conns := cs },
         { tr with connects := tr.connects + 1 }⟩) := by
  constructor
  · rcases hc : s.client with _ | c
    · simp only [get_client, hc]
      exact ⟨fun c h =>
          ⟨(connectFresh_ok s env tr c h).2.1, (connectFresh_ok s env tr c h).1,
           (connectFresh_ok s env tr c h).2.2⟩,
        fun e h => connectFresh_error s env tr e h⟩
    · rcases hl : c.live
      · simp only [get_client, hc, hl, Bool.false_eq_true, if_false]
        rcases hd : (disconnect s env tr).res with e0 | u <;> simp only [hd]
        · refine ⟨fun c0 h => by simp at h, fun e0' h => ?_⟩
          exact ⟨disconnect_client s env tr, disconnect_stack s env tr⟩
        · exact ⟨fun c0 h =>
              ⟨(connectFresh_ok _ _ _ c0 h).2.1, (connectFresh_ok _ _ _ c0 h).1,
               (connectFresh_ok _ _ _ c0 h).2.2⟩,
            fun e0' h => connectFresh_error _ _ _ e0' h⟩
      · have hre : get_client s env tr = ⟨Except.ok c, s, env, tr⟩ :=
          get_client_reuses_live_connection s c env tr hc hl
        rw [hre]
        refine ⟨fun c0 h => ?_, fun e0 h => by simp at h⟩
        have h' : Except.ok (ε := PyErr) c = Except.ok c0 := h
        obtain rfl : c = c0 := by injection h'
        exact ⟨hc, hl, hstack.trans hc⟩
  · intro m cs hcl hconns
    rcases s with ⟨a, cl, st⟩
    simp only at hcl hstack
    subst hcl
    subst hstack
    simp [get_client, connectFresh, connectWith, handlerDisconnectThen,
      popConn, hconns, disconnect, explicitDisconnect, closeStack]

/-- Witness for C5: a disconnected device and a script whose single connect
attempt times out. -/
theorem get_client_full_reset_witness :
    sDisc.stack = sDisc.client ∧
    get_client sDisc envTimeout Trace.init =
      ⟨Except.error (PyErr.idealTimeout ("Timeout on connect to " ++ sampleAddr)),
       ⟨sampleAddr, none, none⟩, ⟨[], [], []⟩, ⟨1, 0, 0, 0, [], []⟩⟩ :=
  ⟨rfl, (get_client_full_reset sDisc envTimeout Trace.init rfl).2 "t" [] rfl rfl⟩

/-- C9: when the stored client reports not-live, `get_client` tears it down
(releasing its teardown context) and performs exactly one fresh connect
attempt; the stale handle is never returned. -/
theorem get_client_stale_replacement (s : DeviceState) (c : ClientH)
    (env : Env) (tr : Trace)
    (hc : s.client = some c) (hl : c.live = false) (hs : s.stack = some c) :
    (get_client s env tr).tr.connects = tr.connects + 1 ∧
    (get_client s env tr).env.conns = env.conns.tail ∧
    tr.releases + 1 ≤ (get_client s env tr).tr.releases ∧
    (∀ c', (get_client s env tr).res = Except.ok c' → c' ≠ c) := by
  rcases c with ⟨cid, live⟩
  simp only at hl
  subst hl
  rcases s with ⟨a, cl, st⟩
  simp only at hc hs
  subst hc
  subst hs
  obtain ⟨conns, gatts, discs⟩ := env
  rcases conns with _ | ⟨co, rest⟩
  · simp [get_client, disconnect, explicitDisconnect, closeStack, popDisc,
      connectFresh, connectWith, handlerDisconnectThen, popConn]
  · rcases co <;>
      simp [get_client, disconnect, explicitDisconnect, closeStack, popDisc,
        connectFresh, connectWith, handlerDisconnectThen, popConn]

/-- Witness for C9 at a concrete stale state with one successful fresh
connect available. -/
theorem get_client_stale_witness :
    sStale.client = some staleClient ∧ staleClient.live = false ∧
    sStale.stack = some staleClient ∧
    ((get_client sStale ⟨[ConnectOutcome.ok 2], [], []⟩ Trace.init).tr.connects
        = Trace.init.connects + 1 ∧
     (get_client sStale ⟨[ConnectOutcome.ok 2], [], []⟩ Trace.init).env.conns
        = ([ConnectOutcome.ok 2] : List ConnectOutcome).tail ∧
     Trace.init.releases + 1 ≤
        (get_client sStale ⟨[ConnectOutcome.ok 2], [], []⟩ Trace.init).tr.releases ∧
     (∀ c', (get_client sStale ⟨[ConnectOutcome.ok 2], [], []⟩ Trace.init).res
        = Except.ok c' → c' ≠ staleClient)) :=
  ⟨rfl, rfl, rfl,
   get_client_stale_replacement sStale staleClient
     ⟨[ConnectOutcome.ok 2], [], []⟩ Trace.init rfl rfl rfl⟩

/-- C6 counterexample scenario: a live connection whose transport disconnect
fails persistently. -/
def c6run : Outcome Unit :=
  stop sLive ⟨[], [], [DiscOutcome.err "boom", DiscOutcome.err "boom"]⟩
    Trace.init

/-- C6 (counterexample): `stop()` can raise.  The error of the explicit
transport disconnect is swallowed, but the exit-stack release then performs
a second transport disconnect outside any `try`, and its failure propagates
out of `stop()` — though the client field is already cleared. -/
theorem stop_raises_cx :
    c6run.res = Except.error (PyErr.bleak "boom") ∧
    c6run.st.client = none ∧ c6run.st.stack = none := by decide

/-- C6 (amended): `stop()` always leaves the state disconnected (client and
stack cleared) even when it raises; on an already-disconnected device it is
a no-op that never raises; a second consecutive `stop()` never raises; and
a failure of the explicit transport disconnect alone is swallowed — `stop()`
still returns normally when the subsequent exit-stack release succeeds. -/
theorem stop_idempotent_amended (s : DeviceState) (env : Env) (tr : Trace) :
    ((stop s env tr).st.client = none ∧ (stop s env tr).st.stack = none) ∧
    (s.client = none → s.stack = none →
      stop s env tr = ⟨Except.ok (), s, env, tr⟩) ∧
    (∀ env' tr', stop (stop s env tr).st env' tr' =
      ⟨Except.ok (), (stop s env tr).st, env', tr'⟩) ∧
    (∀ c m ds, s.client = some c → c.live = true → s.stack = some c →
      env.discs = DiscOutcome.err m :: DiscOutcome.ok :: ds →
      (stop s env tr).res = Except.ok ()) := by
  refine ⟨⟨disconnect_client s env tr, disconnect_stack s env tr⟩,
    fun hc hs => disconnect_disconnected s env tr hc hs,
    fun env' tr' => disconnect_disconnected _ env' tr'
      (disconnect_client s env tr) (disconnect_stack s env tr),
    fun c m ds hc hl hs hdiscs => ?_⟩
  rcases c with ⟨cid, live⟩
  simp only at hl
  subst hl
  rcases s with ⟨a, cl, st⟩
  simp only at hc hs
  subst hc
  subst hs
  simp [stop, disconnect, explicitDisconnect, closeStack, popDisc, hdiscs]

/-- Witness for C6 (amended) at a disconnected device. -/
theorem stop_idempotent_witness :
    sDisc.client = none ∧ sDisc.stack = none ∧
    stop sDisc envEmpty Trace.init =
      ⟨Except.ok (), sDisc, envEmpty, Trace.init⟩ :=
  ⟨rfl, rfl, (stop_idempotent_amended sDisc envEmpty Trace.init).2.1 rfl rfl⟩

def c7envReuse : Env := ⟨[ConnectOutcome.ok 9], [], []⟩

/-- C7 (counterexample): `update_from_advertisement` with a fresh identity
is a no-op — the stored identity is unchanged and the next operation reuses
the existing live connection (the old client is returned with zero connect
attempts), not a fresh connect with the new identity. -/
theorem update_from_advertisement_cx :
    update_from_advertisement sLive "new-identity" = sLive ∧
    (get_client (update_from_advertisement sLive "new-identity") c7envReuse
      Trace.init).res = Except.ok liveClient ∧
    (get_client (update_from_advertisement sLive "new-identity") c7envReuse
      Trace.init).tr.connects = 0 ∧
    (update_from_advertisement sLive "new-identity").addr = sampleAddr := by
  decide

/-- C7 (amended): `update_from_advertisement` is a placeholder (`pass`): it
replaces nothing and tears nothing down — the device state is returned
unchanged, so a live connection keeps being reused afterwards. -/
theorem update_from_advertisement_noop (s : DeviceState) (adv : String) :
    update_from_advertisement s adv = s := rfl

def c3env : Env :=
  ⟨[ConnectOutcome.ok 1, ConnectOutcome.ok 2],
   [GattOutcome.bleakErr "Some other Bleak error, not service discovery",
    GattOutcome.ok []],
   [DiscOutcome.ok]⟩

def c3run : Outcome Unit := write_gatt sDisc goodUUID goodHex c3env Trace.init

/-- C3 (divergence evidence): a write whose first GATT call fails with a
non-discovery transport error is NOT propagated immediately: the code tears
the connection down, sleeps 0.5, reconnects and retries the write — 2 GATT
calls, 2 connects, 1 context release, overall success — where the repo's
own test `test_write_gatt_non_service_discovery_bleak_error` requires
immediate propagation with exactly 1 GATT call, no sleep and no reconnect. -/
theorem write_non_discovery_error_is_retried :
    c3run.res = Except.ok () ∧ c3run.tr.gattOps = 2 ∧
    c3run.tr.connects = 2 ∧ c3run.tr.releases = 1 ∧
    c3run.tr.sleeps = [5] := by decide

def c2env : Env :=
  ⟨[ConnectOutcome.ok 1, ConnectOutcome.ok 2],
   [GattOutcome.bleakErr "Service Discovery has not been performed",
    GattOutcome.ok []],
   [DiscOutcome.ok]⟩

def c2run : Outcome Unit := write_gatt sDisc goodUUID goodHex c2env Trace.init

/-- C2 (counterexample): a write that fails once with a discovery-not-ready
message and succeeds on the immediate retry does NOT retry on the same
connection: the connection is torn down (1 release, 1 transport disconnect),
a delay is slept, and the retry runs on a freshly connected client (id 2,
not 1) — and no service re-discovery primitive is invoked anywhere (the
code has none). -/
theorem write_discovery_error_teardown_cx :
    c2run.res = Except.ok () ∧ c2run.tr.gattOps = 2 ∧
    c2run.tr.releases = 1 ∧ c2run.tr.transportDiscs = 1 ∧
    c2run.tr.connects = 2 ∧ c2run.st.client = some ⟨2, true⟩ ∧
    c2run.tr.sleeps = [5] := by decide

def c4env : Env :=
  ⟨[ConnectOutcome.bleakErr "e1", ConnectOutcome.bleakErr "e2"], [], []⟩

def c4run : Outcome Unit := write_gatt sDisc goodUUID goodHex c4env Trace.init

/-- Discriminator: is a write result the spec's `RetriesExhausted` kind? -/
def isRetriesExhaustedRes : Except PyErr Unit → Bool
  | Except.error (PyErr.retriesExhausted _) => true
  | _ => false

/-- C4 (counterexample): when every connect attempt fails, `write_gatt`
makes exactly `RETRY_ATTEMPTS` = 2 connect attempts with 1 inter-attempt
delay, but the error raised is the last connection error itself
(`IdealLedBleakError`), not a distinct `RetriesExhausted` wrapper — no such
class exists in the code. -/
theorem write_exhaustion_kind_cx :
    c4run.res = Except.error
      (PyErr.idealBleak ("BleakError on connect to " ++ sampleAddr)) ∧
    isRetriesExhaustedRes c4run.res = false ∧
    c4run.tr.connects = 2 ∧ c4run.tr.sleeps = [5] := by decide

/-- C2/C4 helper: does a connect attempt fail to establish? (Everything but
a live connect: timeout, transport error, other error, or a client that
immediately reports not connected.) -/
def connAttemptFails : ConnectOutcome → Bool
  | ConnectOutcome.ok _ => false
  | _ => true

/-- The error `get_client` raises for each failing connect outcome. -/
def connFailErr (a : String) : ConnectOutcome → PyErr
  | ConnectOutcome.timeout _ =>
    PyErr.idealTimeout ("Timeout on connect to " ++ a)
  | ConnectOutcome.bleakErr _ =>
    PyErr.idealBleak ("BleakError on connect to " ++ a)
  | _ => PyErr.idealBleak ("Unexpected error connecting to " ++ a)

/-- An `okDead` connect attempt additionally releases the context it had
just entered. -/
def okDeadCount : ConnectOutcome → Nat
  | ConnectOutcome.okDead _ => 1
  | _ => 0

/-- The canonical 128-bit value of the test UUID
`00001101-0000-1000-8000-00805f9b34fb`. -/
def goodUUIDVal : Nat := 344880191500159748643199353828603

set_option maxHeartbeats 1000000

/-- C2 (amended): a write that fails once with a transport error — whether
or not its message mentions service discovery; the code never inspects the
message and has no re-discovery primitive — tears the connection down
(1 release, 1 transport disconnect), sleeps 0.5, establishes a fresh
connection and retries the operation once; success on that retry returns
success with exactly 2 GATT calls, 0 discovery calls, one teardown and a
new connection. -/
theorem write_transport_error_teardown_retry (a : String) (u d : List Char)
    (v : Nat) (p : List Nat) (m : String) (val : List Nat) (c1 c2 : Nat)
    (rest : List ConnectOutcome) (gs : List GattOutcome)
    (ds : List DiscOutcome)
    (hu : pyUUIDVal (stripBraces u) = some v) (hd : hexBytes d = some p) :
    write_gatt ⟨a, none, none⟩ u d
      ⟨ConnectOutcome.ok c1 :: ConnectOutcome.ok c2 :: rest,
       GattOutcome.bleakErr m :: GattOutcome.ok val :: gs,
       DiscOutcome.ok :: ds⟩ Trace.init =
      ⟨Except.ok (), ⟨a, some ⟨c2, true⟩, some ⟨c2, true⟩⟩, ⟨rest, gs, ds⟩,
       ⟨2, 2, 1, 1, [v, v], [5]⟩⟩ := by
  simp [write_gatt, hu, hd, writeLoop, get_client, connectFresh, connectWith,
    popConn, popGatt, popDisc, disconnect, explicitDisconnect, closeStack,
    handlerDisconnectThen, RETRY_ATTEMPTS, sleepDelay, Trace.init]

/-- Witness for C2 (amended) at the concrete test inputs. -/
theorem write_teardown_retry_witness :
    pyUUIDVal (stripBraces goodUUID) = some goodUUIDVal ∧
    hexBytes goodHex = some [170, 187, 204] ∧
    write_gatt ⟨sampleAddr, none, none⟩ goodUUID goodHex
      ⟨[ConnectOutcome.ok 1, ConnectOutcome.ok 2],
       [GattOutcome.bleakErr "Service Discovery has not been performed",
        GattOutcome.ok []],
       [DiscOutcome.ok]⟩ Trace.init =
      ⟨Except.ok (), ⟨sampleAddr, some ⟨2, true⟩, some ⟨2, true⟩⟩,
       ⟨[], [], []⟩, ⟨2, 2, 1, 1, [goodUUIDVal, goodUUIDVal], [5]⟩⟩ :=
  ⟨by decide, by decide,
   write_transport_error_teardown_retry sampleAddr goodUUID goodHex
     goodUUIDVal [170, 187, 204] "Service Discovery has not been performed"
     [] 1 2 [] [] [] (by decide) (by decide)⟩

/-- C4 (amended): with an outer budget of `RETRY_ATTEMPTS` = N = 2 and a
connection failing to establish on every attempt, `write_gatt` makes
exactly N connect attempts with N-1 inter-attempt delays (0.5) and then
re-raises the connection error of the LAST attempt itself
(`IdealLedTimeout`/`IdealLedBleakError`, which chains the concrete cause) —
there is no separate `RetriesExhausted` wrapper. -/
theorem write_exhaustion_last_error (a : String) (u d : List Char) (v : Nat)
    (p : List Nat) (f1 f2 : ConnectOutcome) (rest : List ConnectOutcome)
    (gs : List GattOutcome) (ds : List DiscOutcome)
    (hu : pyUUIDVal (stripBraces u) = some v) (hd : hexBytes d = some p)
    (h1 : connAttemptFails f1 = true) (h2 : connAttemptFails f2 = true) :
    write_gatt ⟨a, none, none⟩ u d ⟨f1 :: f2 :: rest, gs, ds⟩ Trace.init =
      ⟨Except.error (connFailErr a f2),
       ⟨a, none, none⟩, ⟨rest, gs, ds⟩,
       ⟨2, 0, 0, okDeadCount f1 + okDeadCount f2, [], [5]⟩⟩ := by
  cases f1 <;> simp [connAttemptFails] at h1 <;>
    cases f2 <;> simp [connAttemptFails] at h2 <;>
    simp [write_gatt, hu, hd, writeLoop, get_client, connectFresh,
      connectWith, popConn, popGatt, popDisc, disconnect, explicitDisconnect,
      closeStack, handlerDisconnectThen, RETRY_ATTEMPTS, sleepDelay,
      Trace.init, connFailErr, okDeadCount]

/-- Witness for C4 (amended) at the concrete test inputs. -/
theorem write_exhaustion_witness :
    pyUUIDVal (stripBraces goodUUID) = some goodUUIDVal ∧
    hexBytes goodHex = some [170, 187, 204] ∧
    connAttemptFails (ConnectOutcome.bleakErr "e1") = true ∧
    connAttemptFails (ConnectOutcome.bleakErr "e2") = true ∧
    write_gatt ⟨sampleAddr, none, none⟩ goodUUID goodHex
      ⟨[ConnectOutcome.bleakErr "e1", ConnectOutcome.bleakErr "e2"], [], []⟩
      Trace.init =
      ⟨Except.error (connFailErr sampleAddr (ConnectOutcome.bleakErr "e2")),
       ⟨sampleAddr, none, none⟩, ⟨[], [], []⟩, ⟨2, 0, 0, 0, [], [5]⟩⟩ :=
  ⟨by decide, by decide, rfl, rfl,
   write_exhaustion_last_error sampleAddr goodUUID goodHex goodUUIDVal
     [170, 187, 204] (ConnectOutcome.bleakErr "e1")
     (ConnectOutcome.bleakErr "e2") [] [] [] (by decide) (by decide) rfl rfl⟩

/-- Forgets a read result's payload, keeping error/success, state,
environment and trace — what `write_gatt` would have produced if the two
retry loops behave identically. -/
def toWriteOutcome (o : Outcome (Option (List Nat))) : Outcome Unit :=
  ⟨o.res.map (fun _ => ()), o.st, o.env, o.tr⟩

lemma loop_policy_eq (u : Nat) (p : List Nat) :
    ∀ (fuel : Nat) (last : Option PyErr) (attempt : Nat) (s : DeviceState)
      (env : Env) (tr : Trace),
      writeLoop u p last attempt fuel s env tr =
        toWriteOutcome (readLoop u last attempt fuel s env tr) := by
  intro fuel
  induction fuel with
  | zero =>
    intro last attempt s env tr
    cases last <;> rfl
  | succ n ih =>
    intro last attempt s env tr
    simp only [writeLoop, readLoop]
    rcases hg : (get_client s env tr).res with e | c
    · rcases e with m | m | m | m | m <;> simp only [hg]
      · by_cases ha : attempt ≥ RETRY_ATTEMPTS - 1 <;>
          simp only [ha, if_true, if_false] <;>
          first | rfl | exact ih _ _ _ _ _
      · by_cases ha : attempt ≥ RETRY_ATTEMPTS - 1 <;>
          simp only [ha, if_true, if_false] <;>
          first | rfl | exact ih _ _ _ _ _
      · rcases hd : (disconnect (get_client s env tr).st
            (get_client s env tr).env (get_client s env tr).tr).res
            with e2 | uu <;> simp only [hd]
        · rfl
        · by_cases ha : attempt < RETRY_ATTEMPTS - 1 <;>
            simp only [ha, if_true, if_false] <;>
            first | rfl | exact ih _ _ _ _ _
      · rfl
      · rfl
    · simp only [hg, popGatt]
      rcases hgo : (get_client s env tr).env.gatts.headD (GattOutcome.ok [])
          with val | m <;> simp only [hgo]
      · rfl
      · rcases hd : (disconnect (get_client s env tr).st _ _).res
            with e2 | uu <;> simp only [hd]
        · rfl
        · by_cases ha : attempt < RETRY_ATTEMPTS - 1 <;>
            simp only [ha, if_true, if_false] <;>
            first | rfl | exact ih _ _ _ _ _

/-- C10: for every device state, environment script and decodable payload,
`read_gatt` and `write_gatt` behave identically — same final state, same
script consumption (hence the same number of acquire attempts, the same
inter-attempt delays `0.5` then `1.0`, the same disconnect-before-retry on a
GATT-layer error) and the same raised error at exhaustion; they differ only
in that `read_gatt` additionally returns the payload bytes. -/
theorem read_write_same_retry_policy (s : DeviceState) (u d : List Char)
    (env : Env) (tr : Trace) (p : List Nat) (hd : hexBytes d = some p) :
    write_gatt s u d env tr = toWriteOutcome (read_gatt s u env tr) := by
  unfold write_gatt read_gatt
  rcases hu : pyUUIDVal (stripBraces u) with _ | v <;> simp only [hu, hd]
  · rfl
  · exact loop_policy_eq v p RETRY_ATTEMPTS none 0 s env tr

/-- Witness for C10 at concrete inputs (a failing-connect script). -/
theorem read_write_policy_witness :
    hexBytes goodHex = some [170, 187, 204] ∧
    write_gatt sDisc goodUUID goodHex envTimeout Trace.init =
      toWriteOutcome (read_gatt sDisc goodUUID envTimeout Trace.init) :=
  ⟨by decide, read_write_same_retry_policy sDisc goodUUID goodHex envTimeout
    Trace.init [170, 187, 204] (by decide)⟩

/-- C8: input validation of the GATT operations.  (1) a UUID wrapped in
braces normalises to the same canonical 128-bit value as the bare UUID;
(2)/(3) a malformed UUID makes `write_gatt`/`read_gatt` raise `ValueError`
with the state, script and trace untouched — no connect attempt, no GATT
I/O, no retry; (4) a valid UUID with a non-hex payload likewise raises
before any I/O; (5) when both parse, the retry loop is entered with the
canonical numeric UUID (the normalised form is what every GATT call
uses). -/
theorem gatt_input_validation :
    (∀ u, pyUUIDVal (stripBraces (Char.ofNat 123 :: (u ++ [Char.ofNat 125])))
      = pyUUIDVal (stripBraces u)) ∧
    (∀ s u d env tr, pyUUIDVal (stripBraces u) = none →
      write_gatt s u d env tr =
        ⟨Except.error (PyErr.valueError
          ("Invalid UUID format: " ++ String.mk u)), s, env, tr⟩) ∧
    (∀ s u env tr, pyUUIDVal (stripBraces u) = none →
      read_gatt s u env tr =
        ⟨Except.error (PyErr.valueError
          ("Invalid UUID format: " ++ String.mk u)), s, env, tr⟩) ∧
    (∀ s u d env tr v, pyUUIDVal (stripBraces u) = some v →
      hexBytes d = none →
      write_gatt s u d env tr =
        ⟨Except.error (PyErr.valueError
          "non-hexadecimal number found in fromhex() arg"), s, env, tr⟩) ∧
    (∀ s u d env tr v p, pyUUIDVal (stripBraces u) = some v →
      hexBytes d = some p →
      write_gatt s u d env tr = writeLoop v p none 0 RETRY_ATTEMPTS s env tr) := by
  refine ⟨fun u => ?_, fun s u d env tr h => ?_, fun s u env tr h => ?_,
    fun s u d env tr v hv h => ?_, fun s u d env tr v p hv h => ?_⟩
  · have hb : stripBraces (Char.ofNat 123 :: (u ++ [Char.ofNat 125]))
        = stripBraces u := by
      simp [stripBraces, List.filter_append, List.filter_cons]
    rw [hb]
  · simp [write_gatt, h]
  · simp [read_gatt, h]
  · simp [write_gatt, hv, h]
  · simp [write_gatt, hv, h]

/-- Witness for C8: a braced vs bare UUID, a malformed UUID, and a non-hex
payload, all at concrete inputs. -/
theorem gatt_input_validation_witness :
    pyUUIDVal (stripBraces (Char.ofNat 123 :: (goodUUID ++ [Char.ofNat 125])))
      = pyUUIDVal (stripBraces goodUUID) ∧
    pyUUIDVal (stripBraces (String.toList "xyz")) = none ∧
    write_gatt sDisc (String.toList "xyz") goodHex envEmpty Trace.init =
      ⟨Except.error (PyErr.valueError
        ("Invalid UUID format: " ++ String.mk (String.toList "xyz"))),
       sDisc, envEmpty, Trace.init⟩ ∧
    hexBytes (String.toList "zz") = none ∧
    write_gatt sDisc goodUUID (String.toList "zz") envEmpty Trace.init =
      ⟨Except.error (PyErr.valueError
        "non-hexadecimal number found in fromhex() arg"),
       sDisc, envEmpty, Trace.init⟩ :=
  ⟨gatt_input_validation.1 goodUUID,
   by decide,
   gatt_input_validation.2.1 sDisc (String.toList "xyz") goodHex envEmpty
     Trace.init (by decide),
   by decide,
   gatt_input_validation.2.2.2.1 sDisc goodUUID (String.toList "zz") envEmpty
     Trace.init goodUUIDVal (by decide) (by decide)⟩

end GlowSwitch
